import Mathlib

/-!
Verification development for the MaxScale tee filter
(server/modules/filter/tee/tee.c).

The C file is shallowly embedded below.  Pure decision functions become
Lean functions; stateful entry points become functions from the session
record to an updated session record plus a trace of the externally
visible effects (downstream routing, branch routing, buffer frees,
router close calls, error replies).  External collaborators that the
file only calls through an interface (the downstream chain, the branch
router, regex execution, SQL extraction, DCB cloning, session
allocation) are modelled as explicit parameters or as abstract fields,
exactly at their call sites.  Machine integers only ever hold small
non-negative counters and byte values here, so they are modelled as Nat
(no overflow is reachable in any modelled operation).
-/

namespace Tee

/-- Session lifecycle states from session.h that tee.c reads or writes. -/
inductive session_state_t
  | SESSION_STATE_ALLOC
  | SESSION_STATE_ROUTER_READY
  | SESSION_STATE_STOPPING
  | SESSION_STATE_TO_BE_FREED
  | SESSION_STATE_FREE
  deriving DecidableEq

open session_state_t

/-- DCB states from dcb.h that tee.c inspects.  Only the polling state is
tested by the code; every other state is collapsed into two extra
constructors. -/
inductive dcb_state_t
  | DCB_STATE_ALLOC
  | DCB_STATE_POLLING
  | DCB_STATE_DISCONNECTED
  deriving DecidableEq

open dcb_state_t

/-- A client or branch DCB, reduced to the one field tee.c reads. -/
structure DCB where
  state : dcb_state_t
  deriving DecidableEq

/-- A MaxScale SESSION, reduced to the fields tee.c reads or writes:
the owning service name, the lifecycle state, the reference count and
the client DCB pointer (used by newSession for the parent session and by
the orphan reaper for branch sessions).  The remote address and user
name model the session_get_remote and session_getUser accessors.  The
id field models the identity of the underlying session object (its
address), so that one session can be tracked through the orphan
registry. -/
structure SESSION where
  serviceName : String
  state : session_state_t
  refcount : Nat
  client_dcb : Option DCB
  remote : Option String
  user : Option String
  id : Nat
  deriving DecidableEq

/-- A GWBUF.  The bytes list is the contiguous buffer data
(GWBUF_DATA and GWBUF_LENGTH agree with gwbuf_length for the contiguous
buffers this filter receives).  The sql field is the result of the
external modutil_get_SQL collaborator: none models extraction failure
(non-text command or malformed buffer). -/
structure GWBUF where
  bytes : List Nat
  sql : Option String
  deriving DecidableEq

/-- gwbuf_clone_all produces a full independent copy; its contents equal
the original buffer. -/
def gwbuf_clone_all (buffer : GWBUF) : GWBUF := buffer

/-- The TEE_INSTANCE configuration record.  A compiled regex (regex_t
together with regexec) is modelled by its acceptance predicate: the
field re is some p exactly when the match parameter was set and
compiled, and p s = true models regexec returning 0 on s; likewise nore
for the nomatch (exclude) parameter.  In every instance built by
createInstance the match string is non-NULL exactly when re was
compiled, so the NULL tests on the strings in tee.c are modelled as
tests on re and nore. -/
structure TEE_INSTANCE where
  service : String
  source : Option String
  userName : Option String
  re : Option (String → Bool)
  nore : Option (String → Bool)

/-- The TEE_SESSION record.  Arrays of two elements indexed by
PARENT = 0 and CHILD = 1 become pairs whose first component is the
PARENT slot.  The downstream and upstream chain links are passed to the
routing functions as explicit parameters instead of being stored; the
tee_replybuf, tee_partials, queue, dummy_filterdef and tee_lock fields
are never read by any modelled operation of this source version and are
omitted. -/
structure TEE_SESSION where
  active : Nat
  client_multistatement : Nat
  multipacket : Bool × Bool
  command : Nat
  waiting : Bool × Bool
  eof : Nat × Nat
  replies : Nat × Nat
  reply_packets : Nat × Nat
  branch_dcb : Option DCB
  branch_session : Option SESSION
  n_duped : Nat
  n_rejected : Nat
  residual : Nat
  client_dcb : Option DCB
  deriving DecidableEq

/-- The required_packets array of tee.c (without its 0 terminator):
COM_QUIT, COM_INITDB, COM_CHANGE_USER, COM_STMT_PREPARE,
COM_STMT_EXECUTE, COM_STMT_SEND_LONG_DATA, COM_STMT_CLOSE,
COM_STMT_RESET, COM_CONNECT. -/
def required_packets : List Nat :=
  [0x01, 0x02, 0x11, 0x16, 0x17, 0x18, 0x19, 0x1a, 0x1b]

/-- packet_is_required: the buffer is longer than four bytes and its
fifth byte (the command byte) is one of required_packets. -/
def packet_is_required (queue : GWBUF) : Bool :=
  decide (4 < queue.bytes.length) &&
    decide (queue.bytes.getD 4 0 ∈ required_packets)

/-- clone_query from tee.c.  The session parameter is unused by the
body, exactly as in the source. -/
def clone_query (my_instance : TEE_INSTANCE) (my_session : TEE_SESSION)
    (buffer : GWBUF) : Option GWBUF :=
  if (my_instance.re.isNone && my_instance.nore.isNone) ||
      packet_is_required buffer then
    some (gwbuf_clone_all buffer)
  else
    match buffer.sql with
    | some ptr =>
      if (match my_instance.re with
          | some re => re ptr
          | none => false) ||
         (match my_instance.nore with
          | some nore => !(nore ptr)
          | none => false) then
        some (gwbuf_clone_all buffer)
      else
        none
    | none => none

/-- Externally visible effects of route_single_query: the primary
buffer handed to the downstream chain, a clone handed to the branch
session via SESSION_ROUTE_QUERY, or a clone released with gwbuf_free. -/
inductive RouteEvent
  | primaryRouted (buffer : GWBUF)
  | branchRouted (buffer : GWBUF)
  | cloneFreed (buffer : GWBUF)
  deriving DecidableEq

/-- Result of one route_single_query call: the returned int, the
updated session record, and the emitted effects in program order. -/
structure RouteResult where
  rval : Int
  session : TEE_SESSION
  events : List RouteEvent
  deriving DecidableEq

/-- route_single_query from tee.c.  The downstream chain link is the
explicit parameter down (its int return is the status the chain
reports).  The downstream call may mutate the shared branch session, so
branch_state_after_down is the value the second read of
branch_session.state observes after that call; the first read observes
the state stored in the session record. -/
def route_single_query (my_instance : TEE_INSTANCE) (my_session : TEE_SESSION)
    (buffer : GWBUF) (clone : Option GWBUF) (down : GWBUF → Int)
    (branch_state_after_down : session_state_t) : RouteResult :=
  match my_session.branch_session with
  | some bs =>
    if my_session.active ≠ 0 ∧ bs.state = SESSION_STATE_ROUTER_READY then
      let rval := down buffer
      match clone with
      | some c =>
        let s1 := { my_session with
          n_duped := my_session.n_duped + 1,
          branch_session := some { bs with state := branch_state_after_down } }
        if branch_state_after_down = SESSION_STATE_ROUTER_READY then
          { rval := rval, session := s1,
            events := [RouteEvent.primaryRouted buffer, RouteEvent.branchRouted c] }
        else
          { rval := 0, session := { s1 with active := 0 },
            events := [RouteEvent.primaryRouted buffer, RouteEvent.cloneFreed c] }
      | none =>
        { rval := rval, session := my_session,
          events := [RouteEvent.primaryRouted buffer] }
    else
      { rval := 0, session := my_session, events := [] }
  | none => { rval := 0, session := my_session, events := [] }

/-- routeQuery from tee.c: compute the clone decision, then dispatch. -/
def routeQuery (my_instance : TEE_INSTANCE) (my_session : TEE_SESSION)
    (queue : GWBUF) (down : GWBUF → Int)
    (branch_state_after_down : session_state_t) : RouteResult :=
  route_single_query my_instance my_session queue
    (clone_query my_instance my_session queue) down branch_state_after_down

/-- clientReply from tee.c: the reply is passed unchanged to the
upstream link; the session record is not touched. -/
def clientReply (up : GWBUF → Int) (my_session : TEE_SESSION)
    (reply : GWBUF) : Int × TEE_SESSION :=
  (up reply, my_session)

/-- Result of one closeSession call: the updated session record,
whether the branch router close hook was invoked, and whether a
Session closed error reply was written to the client DCB. -/
structure CloseResult where
  session : TEE_SESSION
  routerClosed : Bool
  errorWritten : Bool
  deriving DecidableEq

/-- closeSession from tee.c.  When the session is active: an existing
branch session is moved to SESSION_STATE_STOPPING and its router close
hook is invoked; if the PARENT side is still waiting for a reply, the
in-flight command is not COM_QUIT and the client DCB is still polling,
an error reply is written; finally active is cleared.  When the session
is not active nothing happens. -/
def closeSession (my_session : TEE_SESSION) : CloseResult :=
  if my_session.active ≠ 0 then
    { session := { my_session with
        active := 0,
        branch_session := my_session.branch_session.map
          (fun bs => { bs with state := SESSION_STATE_STOPPING }) },
      routerClosed := my_session.branch_session.isSome,
      errorWritten := my_session.waiting.1 &&
        decide (my_session.command ≠ 0x01) &&
        (match my_session.client_dcb with
         | some d => decide (d.state = DCB_STATE_POLLING)
         | none => false) }
  else
    { session := my_session, routerClosed := false, errorWritten := false }

/-- reset_session_state from tee.c.  Returns the int result paired with
the updated session.  The case 0x1b arm of the switch falls through to
the multipacket arms in the source, which is reproduced here. -/
def reset_session_state (my_session : TEE_SESSION) (buffer : GWBUF) :
    Int × TEE_SESSION :=
  if buffer.bytes.length < 5 then
    (0, my_session)
  else
    let command := buffer.bytes.getD 4 0
    let s1 :=
      if command = 0x1b then
        { my_session with client_multistatement := buffer.bytes.getD 5 0 }
      else
        my_session
    let multi :=
      if command = 0x1b ∨ command = 0x03 ∨ command = 0x16 ∨
          command = 0x17 ∨ command = 0x04 ∨ command = 0x0a then
        (true, true)
      else
        (false, false)
    (1, { s1 with
      multipacket := multi,
      replies := (0, 0),
      reply_packets := (0, 0),
      eof := (0, 0),
      waiting := (true, true),
      command := command })

/-- One entry of the filters array of a SERVICE.  The filter field of a
FILTER_DEF is the module instance pointer; for a tee filter it is a
TEE_INSTANCE whose service field names the target, so it is modelled as
that target name (none models a NULL pointer: the chained tee instance
has not been initialized yet). -/
structure FILTER_DEF where
  module : String
  filter : Option String
  deriving DecidableEq

/-- A SERVICE of the configuration graph, as seen by detect_loops: its
name and its attached filters. -/
structure SERVICE where
  name : String
  filters : List FILTER_DEF
  deriving DecidableEq

/-- The filters attached to the service with the given name (the
service graph is a finite environment keyed by name). -/
def service_filters (env : List SERVICE) (name : String) : List FILTER_DEF :=
  match env.find? (fun sv => sv.name == name) with
  | some sv => sv.filters
  | none => []

/-- The for loop of detect_loops over the filters of one service.  The
visited set ht is threaded through the recursive calls exactly as the
shared hashtable is in the source: recur is the recursive detect_loops
call at the remaining depth. -/
def dl_filters (recur : List String → String → Bool × List String) :
    List String → List FILTER_DEF → Bool × List String
  | ht, [] => (false, ht)
  | ht, fd :: rest =>
    if fd.module = "tee" then
      match fd.filter with
      | none => dl_filters recur ht rest
      | some tgt =>
        match recur ht tgt with
        | (true, ht2) => (true, ht2)
        | (false, ht2) => dl_filters recur ht2 rest
    else
      dl_filters recur ht rest

/-- detect_loops from tee.c.  The hashtable of visited service names is
the list ht (hashtable_add returning 0 on a duplicate becomes the
membership test).  The C recursion is bounded by the visited set, which
grows at every nesting level; the fuel parameter makes that bound
explicit, and callers pass one more than the number of services so the
fuel can never run out. -/
def detect_loops (env : List SERVICE) :
    Nat → List String → String → Bool × List String
  | 0, ht, _ => (true, ht)
  | fuel + 1, ht, name =>
    if name ∈ ht then
      (true, ht)
    else
      dl_filters (detect_loops env fuel) (name :: ht) (service_filters env name)

/-- newSession from tee.c.  The owning session provides the service
name, the client DCB and the session_get_remote and session_getUser
values.  The dcb_clone and session_alloc collaborators may fail, so
their results are passed as parameters: dcb_clone_result is what
dcb_clone would return and session_alloc_result what session_alloc
would return (they are consulted only when the session is active, as in
the source).  MXS_CALLOC zero-initializes every field of the fresh
TEE_SESSION. -/
def newSession (env : List SERVICE) (my_instance : TEE_INSTANCE)
    (session : SESSION) (dcb_clone_result : Option DCB)
    (session_alloc_result : Option SESSION) : Option TEE_SESSION :=
  if my_instance.service = session.serviceName then
    none
  else if (detect_loops env (env.length + 1) [] session.serviceName).1 then
    none
  else
    let ms0 : TEE_SESSION :=
      { active := 1, client_multistatement := 0, multipacket := (false, false),
        command := 0, waiting := (false, false), eof := (0, 0),
        replies := (0, 0), reply_packets := (0, 0), branch_dcb := none,
        branch_session := none, n_duped := 0, n_rejected := 0, residual := 0,
        client_dcb := session.client_dcb }
    let ms1 :=
      match my_instance.source, session.remote with
      | some source, some remote =>
        if remote ≠ source then { ms0 with active := 0 } else ms0
      | _, _ => ms0
    let ms2 :=
      match my_instance.userName, session.user with
      | some iname, some uname =>
        if uname ≠ iname then { ms1 with active := 0 } else ms1
      | _, _ => ms1
    if ms2.active ≠ 0 then
      match dcb_clone_result with
      | none => none
      | some dcb =>
        match session_alloc_result with
        | none => none
        | some ses =>
          some { ms2 with branch_session := some ses, branch_dcb := some dcb }
    else
      some ms2

/-- create_orphan from tee.c: prepend the branch session to the global
orphan registry (the registry is passed and returned explicitly; the
malloc is assumed to succeed, a failed malloc leaves the registry
unchanged and is not modelled). -/
def create_orphan (ses : SESSION) (allOrphans : List SESSION) : List SESSION :=
  ses :: allOrphans

/-- The body of the second if of the orphan_free scan loop: a session
in SESSION_STATE_STOPPING with zero references and no client DCB is
moved to SESSION_STATE_TO_BE_FREED; any other session is left alone. -/
def orphan_mark (ses : SESSION) : SESSION :=
  if ses.state = SESSION_STATE_STOPPING ∧ ses.refcount = 0 ∧
      ses.client_dcb = none then
    { ses with state := SESSION_STATE_TO_BE_FREED }
  else
    ses

/-- The while loop of orphan_free, run under orphanLock.  For each
entry in registry order: an entry already in SESSION_STATE_TO_BE_FREED
is unlinked and prepended to the finished list (exactly the pointer
surgery of the source); otherwise the entry stays and the
stopping-and-quiescent transition of orphan_mark is applied to it.
Returns the remaining registry and the finished list. -/
def orphan_scan : List SESSION → List SESSION → List SESSION × List SESSION
  | [], finished => ([], finished)
  | ses :: rest, finished =>
    if ses.state = SESSION_STATE_TO_BE_FREED then
      orphan_scan rest (ses :: finished)
    else
      let r := orphan_scan rest finished
      (orphan_mark ses :: r.1, r.2)

/-- orphan_free from tee.c: the locked scan produces the new registry
and the finished list; then, outside the lock, every finished entry has
its router freeSession hook invoked and its memory released (modelled
by the final SESSION_STATE_FREE state).  The second component lists the
sessions that were freed by this call. -/
def orphan_free (allOrphans : List SESSION) : List SESSION × List SESSION :=
  ((orphan_scan allOrphans []).1,
   (orphan_scan allOrphans []).2.map
     (fun ses => { ses with state := SESSION_STATE_FREE }))

/-- The char pointer fields of TEE_INSTANCE while createInstance is
filling them in from the parameter array (each some value is a string
allocated with MXS_STRDUP_A; service holds the service_find result). -/
structure TeeConfigStrings where
  service : Option String
  source : Option String
  userName : Option String
  match_str : Option String
  nomatch_str : Option String
  deriving DecidableEq

/-- service_find: resolve a service name against the set of configured
services. -/
def service_find (env : List String) (name : String) : Option String :=
  if env.contains name then some name else none

/-- The parameter loop of createInstance.  Parameters named service,
match, exclude, source and user fill the corresponding fields (a
repeated name overwrites, as the assignments in the source do); any
other name is only logged via filter_standard_parameter and changes
nothing. -/
def parse_params (env : List String) :
    List (String × String) → TeeConfigStrings → TeeConfigStrings
  | [], acc => acc
  | p :: rest, acc =>
    if p.1 = "service" then
      parse_params env rest { acc with service := service_find env p.2 }
    else if p.1 = "match" then
      parse_params env rest { acc with match_str := some p.2 }
    else if p.1 = "exclude" then
      parse_params env rest { acc with nomatch_str := some p.2 }
    else if p.1 = "source" then
      parse_params env rest { acc with source := some p.2 }
    else if p.1 = "user" then
      parse_params env rest { acc with userName := some p.2 }
    else
      parse_params env rest acc

/-- The empty TeeConfigStrings record (all pointers NULL after
MXS_CALLOC). -/
def initConfig : TeeConfigStrings :=
  { service := none, source := none, userName := none, match_str := none,
    nomatch_str := none }

/-- The regcomp cflags assembled by the option loop of createInstance:
REG_ICASE (set initially) and REG_EXTENDED. -/
structure CFlags where
  icase : Bool
  extended : Bool
  deriving DecidableEq

/-- The option loop of createInstance.  Options are compared case
insensitively; ignorecase, case and extended toggle the flags and any
other option is only logged. -/
def compute_cflags (options : Option (List String)) : CFlags :=
  match options with
  | none => { icase := true, extended := false }
  | some opts =>
    opts.foldl
      (fun cf o =>
        if o.toLower = "ignorecase" then { cf with icase := true }
        else if o.toLower = "case" then { cf with icase := false }
        else if o.toLower = "extended" then { cf with extended := true }
        else cf)
      { icase := true, extended := false }

/-- Result of createInstance: the created instance, if any, and the
names of the strdup allocated fields that were still allocated but not
freed when the function returned NULL (empty on success, where
ownership passes to the instance). -/
structure CreateResult where
  created : Option TEE_INSTANCE
  leaked : List String

/-- The tail of createInstance from the nomatch compilation on: rc is
the external regcomp collaborator (none models a nonzero regcomp
return) applied to the already computed cflags.  On the nomatch failure
path the source frees match, nomatch and source but not userName. -/
def createInstance_nomatch_stage (svc : String) (acc : TeeConfigStrings)
    (cflags : CFlags) (rc : CFlags → String → Option (String → Bool))
    (reFn : Option (String → Bool)) : CreateResult :=
  match acc.nomatch_str with
  | some nm =>
    match rc cflags nm with
    | none =>
      { created := none,
        leaked := if acc.userName.isSome then ["userName"] else [] }
    | some noreFn =>
      { created := some
          { service := svc, source := acc.source, userName := acc.userName,
            re := reFn, nore := some noreFn },
        leaked := [] }
  | none =>
    { created := some
        { service := svc, source := acc.source, userName := acc.userName,
          re := reFn, nore := none },
      leaked := [] }

/-- createInstance from tee.c.  Options are logged as unsupported but
still parsed for the regex flags; unexpected parameters are logged and
ignored.  The function returns NULL exactly when the service is missing
or unresolvable or one of the regexes fails to compile.  On the
missing-service path the source frees match and source but neither
nomatch nor userName; on the match compilation failure path it frees
match, nomatch and source but not userName. -/
def createInstance (env : List String)
    (rc : CFlags → String → Option (String → Bool))
    (options : Option (List String)) (params : List (String × String)) :
    CreateResult :=
  let acc := parse_params env params initConfig
  let cflags := compute_cflags options
  match acc.service with
  | none =>
    { created := none,
      leaked := (if acc.nomatch_str.isSome then ["nomatch"] else []) ++
        (if acc.userName.isSome then ["userName"] else []) }
  | some svc =>
    match acc.match_str with
    | none => createInstance_nomatch_stage svc acc cflags rc none
    | some m =>
      match rc cflags m with
      | none =>
        { created := none,
          leaked := if acc.userName.isSome then ["userName"] else [] }
      | some reFn => createInstance_nomatch_stage svc acc cflags rc (some reFn)

/-! Concrete builders shared by several test inputs below. -/

/-- A TEE_SESSION as newSession builds it: every field zeroed by
MXS_CALLOC except the given activity flag and branch session. -/
def mkTeeSession (active : Nat) (bses : Option SESSION) : TEE_SESSION :=
  { active := active, client_multistatement := 0, multipacket := (false, false),
    command := 0, waiting := (false, false), eof := (0, 0), replies := (0, 0),
    reply_packets := (0, 0), branch_dcb := none, branch_session := bses,
    n_duped := 0, n_rejected := 0, residual := 0, client_dcb := none }

/-- A branch session on the target service in the given state. -/
def mkBranch (st : session_state_t) : SESSION :=
  { serviceName := "branch_svc", state := st, refcount := 0, client_dcb := none,
    remote := none, user := none, id := 1 }

/-- A tee instance pointing at the branch service with no content
filters. -/
def plainInstance : TEE_INSTANCE :=
  { service := "branch_svc", source := none, userName := none,
    re := none, nore := none }

/-- A five byte COM_QUERY buffer whose SQL payload extracts. -/
def queryBuf : GWBUF :=
  { bytes := [1, 0, 0, 0, 0x03], sql := some "SELECT 1" }

/-- Claim C1: the claim says route_single_query forwards the primary
buffer down the primary chain and returns the primary status for every
session state, in particular for a session created with active = 0.
The code evaluated at such a failing input shows the opposite: for an
inactive session (and likewise when no branch session exists) the body
is skipped entirely, no primaryRouted effect is emitted, and 0 is
returned even though the downstream chain would have returned 1.  This
contradicts the documentation block of route_single_query itself, which
promises that the main query is routed downstream along the main filter
chain. -/
theorem tee_route_inactive_session_primary_not_forwarded :
    route_single_query plainInstance (mkTeeSession 0 none) queryBuf none
      (fun _ => 1) SESSION_STATE_ROUTER_READY =
      { rval := 0, session := mkTeeSession 0 none, events := [] } := rfl

/-- Claim C2: whenever no include and no exclude pattern is configured,
or the command byte at offset 4 (present when the buffer is longer than
4 bytes) is one of the required commands COM_QUIT, COM_INITDB,
COM_CHANGE_USER, COM_STMT_PREPARE, COM_STMT_EXECUTE,
COM_STMT_SEND_LONG_DATA, COM_STMT_CLOSE, COM_STMT_RESET or COM_CONNECT,
clone_query returns a full independent clone of the buffer, for every
configured pattern content. -/
theorem clone_query_unconditional_duplication
    (inst : TEE_INSTANCE) (s : TEE_SESSION) (buffer : GWBUF)
    (h : (inst.re = none ∧ inst.nore = none) ∨
      (4 < buffer.bytes.length ∧ buffer.bytes.getD 4 0 ∈ required_packets)) :
    clone_query inst s buffer = some (gwbuf_clone_all buffer) := by
  rcases h with ⟨h1, h2⟩ | ⟨h1, h2⟩
  · simp [clone_query, h1, h2]
  · have hp : packet_is_required buffer = true := by
      unfold packet_is_required
      rw [decide_eq_true h1, decide_eq_true h2]
      rfl
    simp [clone_query, hp]

/-- Witness for C2: an include pattern that matches nothing and an
exclude pattern that matches everything would veto any content-based
duplication, yet a COM_STMT_PREPARE buffer is still cloned. -/
theorem clone_query_unconditional_duplication_witness :
    clone_query
      { service := "branch_svc", source := none, userName := none,
        re := some (fun _ => false), nore := some (fun _ => true) }
      (mkTeeSession 1 none)
      { bytes := [1, 0, 0, 0, 0x16], sql := some "PREPARE stmt" } =
      some (gwbuf_clone_all
        { bytes := [1, 0, 0, 0, 0x16], sql := some "PREPARE stmt" }) :=
  clone_query_unconditional_duplication _ _ _ (Or.inr (by decide))

/-- Claim C3: for a buffer whose command is not in the required set,
with both an include and an exclude pattern configured, a clone is
produced exactly when the payload matches the include pattern or does
not match the exclude pattern (OR combination); and when SQL extraction
fails no clone is produced. -/
theorem clone_query_or_gate_semantics
    (inst : TEE_INSTANCE) (s : TEE_SESSION) (buffer : GWBUF)
    (f g : String → Bool)
    (hre : inst.re = some f) (hnore : inst.nore = some g)
    (hreq : packet_is_required buffer = false) :
    (∀ ptr, buffer.sql = some ptr →
      clone_query inst s buffer =
        (if f ptr || !(g ptr) then some (gwbuf_clone_all buffer) else none))
    ∧ (buffer.sql = none → clone_query inst s buffer = none) := by
  constructor
  · intro ptr hsql
    simp [clone_query, hre, hnore, hreq, hsql]
  · intro hsql
    simp [clone_query, hre, hnore, hreq, hsql]

/-- Witness for C3: with include matching only SELECT statements and an
exclude pattern matching everything, the SELECT query is cloned because
the include gate fires even though the exclude gate would suppress it. -/
theorem clone_query_or_gate_semantics_witness :
    clone_query
      { service := "branch_svc", source := none, userName := none,
        re := some (fun p => p == "SELECT 1"), nore := some (fun _ => true) }
      (mkTeeSession 1 none)
      { bytes := [1, 0, 0, 0, 0x03], sql := some "SELECT 1" } =
      some (gwbuf_clone_all
        { bytes := [1, 0, 0, 0, 0x03], sql := some "SELECT 1" }) := by
  have h := (clone_query_or_gate_semantics
    { service := "branch_svc", source := none, userName := none,
      re := some (fun p => p == "SELECT 1"), nore := some (fun _ => true) }
    (mkTeeSession 1 none)
    { bytes := [1, 0, 0, 0, 0x03], sql := some "SELECT 1" }
    (fun p => p == "SELECT 1") (fun _ => true)
    rfl rfl (by decide)).1 "SELECT 1" rfl
  rw [h]
  decide

/-- Claim C4: the claim says that when a clone exists but the branch
session is not ready at dispatch time, the clone is freed, active is
cleared, n_rejected is incremented, and the primary status (success) is
still returned.  The code evaluated at the failing inputs diverges.
First conjunct: with the branch already stopping when the query
arrives, the whole body is skipped: the primary query is not routed at
all, the clone is not freed, active stays 1, n_rejected stays 0 and 0
is returned.  Second conjunct: when the branch stops between the
primary route and the branch route, the clone is freed and active is
cleared, but n_duped (not n_rejected) is incremented and 0 is returned
instead of the primary status 1, so the branch failure is propagated to
the caller.  No statement of tee.c ever increments n_rejected, although
the field is documented as the number of rejected queries and printed
by diagnostic. -/
theorem tee_route_branch_not_ready_divergence :
    (route_single_query plainInstance
        (mkTeeSession 1 (some (mkBranch SESSION_STATE_STOPPING))) queryBuf
        (some queryBuf) (fun _ => 1) SESSION_STATE_STOPPING =
      { rval := 0,
        session := mkTeeSession 1 (some (mkBranch SESSION_STATE_STOPPING)),
        events := [] })
    ∧ (route_single_query plainInstance
        (mkTeeSession 1 (some (mkBranch SESSION_STATE_ROUTER_READY))) queryBuf
        (some queryBuf) (fun _ => 1) SESSION_STATE_STOPPING =
      { rval := 0,
        session :=
          { active := 0, client_multistatement := 0,
            multipacket := (false, false), command := 0,
            waiting := (false, false), eof := (0, 0), replies := (0, 0),
            reply_packets := (0, 0), branch_dcb := none,
            branch_session := some (mkBranch SESSION_STATE_STOPPING),
            n_duped := 1, n_rejected := 0, residual := 0, client_dcb := none },
        events := [RouteEvent.primaryRouted queryBuf,
          RouteEvent.cloneFreed queryBuf] }) :=
  ⟨rfl, rfl⟩

/-- Claim C8: closing a session is idempotent.  After any closeSession
call the session has active = 0, so a second call takes the inactive
branch: it requests no router close of the branch session, writes no
error reply to the client, and leaves the session record unchanged. -/
theorem closeSession_idempotent (s : TEE_SESSION) :
    closeSession (closeSession s).session =
      { session := (closeSession s).session, routerClosed := false,
        errorWritten := false } := by
  unfold closeSession
  by_cases h : s.active ≠ 0
  · simp [h]
  · simp [h]

/-- Configuration graph with a duplication cycle: service A carries a
tee filter targeting B, and B carries a tee filter targeting A. -/
def envABA : List SERVICE :=
  [{ name := "A", filters := [{ module := "tee", filter := some "B" }] },
   { name := "B", filters := [{ module := "tee", filter := some "A" }] }]

/-- Acyclic chain: A tees to B, B tees to C, C has no filters. -/
def envABC : List SERVICE :=
  [{ name := "A", filters := [{ module := "tee", filter := some "B" }] },
   { name := "B", filters := [{ module := "tee", filter := some "C" }] },
   { name := "C", filters := [] }]

/-- Chain whose second tee instance is not initialized yet (NULL
instance pointer): it must be skipped, not reported as a loop. -/
def envUnresolved : List SERVICE :=
  [{ name := "A", filters := [{ module := "tee", filter := some "B" }] },
   { name := "B", filters := [{ module := "tee", filter := none }] }]

/-- A parent session on the given service with a polling client DCB. -/
def sessOn (svc : String) : SESSION :=
  { serviceName := svc, state := SESSION_STATE_ROUTER_READY, refcount := 1,
    client_dcb := some { state := DCB_STATE_POLLING }, remote := none,
    user := none, id := 0 }

/-- A tee instance targeting service B with no optional filters. -/
def instToB : TEE_INSTANCE :=
  { service := "B", source := none, userName := none, re := none, nore := none }

/-- Claim C5: newSession fails (returns no session) whenever the owning
service name equals the branch target name, or the loop detector
reports a cycle; the chain A to B back to A is rejected, the acyclic
chain A, B, C is accepted, and an uninitialized chained tee instance is
skipped rather than reported as a loop. -/
theorem newSession_loop_rejection :
    (∀ (env : List SERVICE) (inst : TEE_INSTANCE) (sess : SESSION)
        (d : Option DCB) (bs : Option SESSION),
      inst.service = sess.serviceName →
      newSession env inst sess d bs = none)
    ∧ (∀ (env : List SERVICE) (inst : TEE_INSTANCE) (sess : SESSION)
        (d : Option DCB) (bs : Option SESSION),
      (detect_loops env (env.length + 1) [] sess.serviceName).1 = true →
      newSession env inst sess d bs = none)
    ∧ (detect_loops envABA 3 [] "A").1 = true
    ∧ newSession envABA instToB (sessOn "A") none none = none
    ∧ (detect_loops envABC 4 [] "A").1 = false
    ∧ (newSession envABC instToB (sessOn "A")
        (some { state := DCB_STATE_POLLING })
        (some (mkBranch SESSION_STATE_ROUTER_READY))).isSome = true
    ∧ (detect_loops envUnresolved 3 [] "A").1 = false := by
  refine ⟨?_, ?_, by decide, by decide, by decide, by decide, by decide⟩
  · intro env inst sess d bs h
    simp [newSession, h]
  · intro env inst sess d bs h
    by_cases h1 : inst.service = sess.serviceName
    · simp [newSession, h1]
    · simp [newSession, h1, h]

/-- Witness for C5: a tee instance whose target service is the owning
service itself is rejected at session creation. -/
theorem newSession_loop_rejection_witness :
    newSession []
      { service := "A", source := none, userName := none, re := none,
        nore := none }
      (sessOn "A") none none = none :=
  newSession_loop_rejection.1 [] _ (sessOn "A") none none rfl

/-- Claim C6: when the source filter is configured and the client
address differs, or the user filter is configured and the user name
differs, newSession still returns a session, but with active = 0 and no
branch session or branch DCB; and no later filter operation ever sets
active back to a nonzero value (route_single_query and closeSession,
the only operations that write active, both preserve active = 0). -/
theorem newSession_gate_mismatch_inactive :
    (∀ (env : List SERVICE) (inst : TEE_INSTANCE) (sess : SESSION)
        (d : Option DCB) (bs : Option SESSION),
      inst.service ≠ sess.serviceName →
      (detect_loops env (env.length + 1) [] sess.serviceName).1 = false →
      ((∃ a r, inst.source = some a ∧ sess.remote = some r ∧ r ≠ a) ∨
       (∃ u su, inst.userName = some u ∧ sess.user = some su ∧ su ≠ u)) →
      ∃ ms, newSession env inst sess d bs = some ms ∧ ms.active = 0 ∧
        ms.branch_session = none ∧ ms.branch_dcb = none)
    ∧ (∀ (inst : TEE_INSTANCE) (s : TEE_SESSION) (buffer : GWBUF)
        (clone : Option GWBUF) (down : GWBUF → Int) (st : session_state_t),
      s.active = 0 →
      (route_single_query inst s buffer clone down st).session.active = 0)
    ∧ (∀ s : TEE_SESSION, s.active = 0 →
      (closeSession s).session.active = 0) := by
  refine ⟨?_, ?_, ?_⟩
  · intro env inst sess d bs h1 h2 h3
    unfold newSession
    simp only [h1, if_false, h2, Bool.false_eq_true]
    rcases h3 with ⟨a, r, hsrc, hrem, hne⟩ | ⟨u, su, husr, hu, hne⟩
    · rw [hsrc, hrem]
      simp only [ne_eq, hne, not_false_eq_true, if_true]
      cases hun : inst.userName <;> cases hu2 : sess.user <;> simp_all
    · rw [husr, hu]
      cases hsr : inst.source <;> cases hr2 : sess.remote <;> simp_all
      split <;> simp_all
  · intro inst s buffer clone down st h
    cases hbs : s.branch_session <;> simp [route_single_query, hbs, h]
  · intro s h
    simp [closeSession, h]

/-- Witness for C6: a client from 10.0.0.9 against a source filter of
10.0.0.5 yields a live session with duplication permanently off. -/
theorem newSession_gate_mismatch_inactive_witness :
    ∃ ms, newSession []
      { service := "branch_svc", source := some "10.0.0.5", userName := none,
        re := none, nore := none }
      { serviceName := "A", state := SESSION_STATE_ROUTER_READY, refcount := 1,
        client_dcb := some { state := DCB_STATE_POLLING },
        remote := some "10.0.0.9", user := none, id := 0 } none none =
      some ms ∧ ms.active = 0 ∧ ms.branch_session = none ∧
      ms.branch_dcb = none :=
  newSession_gate_mismatch_inactive.1 [] _ _ none none (by decide) (by decide)
    (Or.inl ⟨"10.0.0.5", "10.0.0.9", rfl, rfl, by decide⟩)

/-- Counterexample for claim C9.  The claim says createInstance fails
when an unsupported parameter or option is supplied and that every
failure path releases all partially allocated configuration storage.
First conjunct: a configuration with a valid service and the unsupported
parameter fruit still creates the instance (the source only logs the
unexpected parameter and continues).  Second conjunct: on the
missing-service failure path the userName string remains allocated (the
source frees only match and source there), so not all storage is
released. -/
theorem createInstance_claim_counterexample :
    (createInstance ["svc2"] (fun _ _ => some (fun _ => true)) none
      [("service", "svc2"), ("fruit", "banana")]).created.isSome = true
    ∧ "userName" ∈ (createInstance [] (fun _ _ => some (fun _ => true)) none
      [("service", "nosuch"), ("user", "bob")]).leaked :=
  ⟨rfl, by decide⟩

/-- Claim C9 as amended: createInstance fails exactly when the target
service is missing or unresolvable, the match regex is invalid, or the
exclude regex is invalid; an unsupported parameter or option is logged
but does not prevent creation; and on every failure path where a user
parameter was given, the userName string is not released (it leaks), so
not all partially allocated storage is released. -/
theorem createInstance_failure_conditions
    (env : List String) (rc : CFlags → String → Option (String → Bool))
    (options : Option (List String)) (params : List (String × String)) :
    ((createInstance env rc options params).created = none ↔
      ((parse_params env params initConfig).service = none ∨
       (∃ m, (parse_params env params initConfig).match_str = some m ∧
         rc (compute_cflags options) m = none) ∨
       (∃ nm, (parse_params env params initConfig).nomatch_str = some nm ∧
         rc (compute_cflags options) nm = none)))
    ∧ ((createInstance env rc options params).created = none →
       (parse_params env params initConfig).userName.isSome = true →
       "userName" ∈ (createInstance env rc options params).leaked) := by
  unfold createInstance createInstance_nomatch_stage
  cases hsvc : (parse_params env params initConfig).service with
  | none =>
    constructor
    · simp [hsvc]
    · intro _ hu
      simp [hsvc, hu]
  | some svc =>
    cases hm : (parse_params env params initConfig).match_str with
    | none =>
      cases hnm : (parse_params env params initConfig).nomatch_str with
      | none => simp [hsvc, hm, hnm]
      | some nm =>
        cases hrc : rc (compute_cflags options) nm with
        | none =>
          constructor
          · simp [hsvc, hm, hnm, hrc]
          · intro _ hu
            simp [hsvc, hm, hnm, hrc, hu]
        | some g => simp [hsvc, hm, hnm, hrc]
    | some m =>
      cases hrc : rc (compute_cflags options) m with
      | none =>
        constructor
        · simp [hsvc, hm, hrc]
        · intro _ hu
          simp [hsvc, hm, hrc, hu]
      | some f =>
        cases hnm : (parse_params env params initConfig).nomatch_str with
        | none => simp [hsvc, hm, hnm, hrc]
        | some nm =>
          cases hrc2 : rc (compute_cflags options) nm with
          | none =>
            constructor
            · simp [hsvc, hm, hnm, hrc, hrc2]
            · intro _ hu
              simp [hsvc, hm, hnm, hrc, hrc2, hu]
          | some g => simp [hsvc, hm, hnm, hrc, hrc2]

/-- Witness for amended C9: with no match or exclude regex to compile
and an unresolvable service, creation fails and the allocated userName
string is leaked. -/
theorem createInstance_failure_conditions_witness :
    "userName" ∈ (createInstance [] (fun _ _ => none) none
      [("service", "nosuch"), ("user", "bob")]).leaked :=
  (createInstance_failure_conditions [] (fun _ _ => none) none
    [("service", "nosuch"), ("user", "bob")]).2 rfl rfl

/-! Helper lemmas about the orphan registry scan. -/

lemma orphan_mark_id (ses : SESSION) : (orphan_mark ses).id = ses.id := by
  unfold orphan_mark
  split <;> rfl

lemma orphan_scan_cons_tbf {x : SESSION}
    (hx : x.state = SESSION_STATE_TO_BE_FREED) (rest acc : List SESSION) :
    orphan_scan (x :: rest) acc = orphan_scan rest (x :: acc) := by
  simp [orphan_scan, hx]

lemma orphan_scan_cons_keep {x : SESSION}
    (hx : ¬ x.state = SESSION_STATE_TO_BE_FREED) (rest acc : List SESSION) :
    orphan_scan (x :: rest) acc =
      (orphan_mark x :: (orphan_scan rest acc).1, (orphan_scan rest acc).2) := by
  simp [orphan_scan, hx]

/-- Every entry of the registry left by the scan is the orphan_mark
image of an entry of the scanned registry. -/
lemma orphan_scan_fst_mem :
    ∀ (l acc : List SESSION) (s : SESSION), s ∈ (orphan_scan l acc).1 →
      ∃ t, t ∈ l ∧ s = orphan_mark t := by
  intro l
  induction l with
  | nil =>
    intro acc s h
    simp [orphan_scan] at h
  | cons x rest ih =>
    intro acc s h
    by_cases hx : x.state = SESSION_STATE_TO_BE_FREED
    · rw [orphan_scan_cons_tbf hx] at h
      rcases ih _ _ h with ⟨t, ht, rfl⟩
      exact ⟨t, List.mem_cons_of_mem _ ht, rfl⟩
    · rw [orphan_scan_cons_keep hx] at h
      rcases List.mem_cons.1 h with rfl | h2
      · exact ⟨x, List.mem_cons_self _ _, rfl⟩
      · rcases ih _ _ h2 with ⟨t, ht, rfl⟩
        exact ⟨t, List.mem_cons_of_mem _ ht, rfl⟩

/-- Every entry of the finished list produced by the scan either was in
the scanned registry in state SESSION_STATE_TO_BE_FREED or was already
in the accumulator. -/
lemma orphan_scan_snd_mem :
    ∀ (l acc : List SESSION) (s : SESSION), s ∈ (orphan_scan l acc).2 →
      (s ∈ l ∧ s.state = SESSION_STATE_TO_BE_FREED) ∨ s ∈ acc := by
  intro l
  induction l with
  | nil =>
    intro acc s h
    exact Or.inr (by simpa [orphan_scan] using h)
  | cons x rest ih =>
    intro acc s h
    by_cases hx : x.state = SESSION_STATE_TO_BE_FREED
    · rw [orphan_scan_cons_tbf hx] at h
      rcases ih _ _ h with ⟨h1, h2⟩ | h3
      · exact Or.inl ⟨List.mem_cons_of_mem _ h1, h2⟩
      · rcases List.mem_cons.1 h3 with rfl | h4
        · exact Or.inl ⟨List.mem_cons_self _ _, hx⟩
        · exact Or.inr h4
    · rw [orphan_scan_cons_keep hx] at h
      rcases ih _ _ h with ⟨h1, h2⟩ | h3
      · exact Or.inl ⟨List.mem_cons_of_mem _ h1, h2⟩
      · exact Or.inr h3

/-- The scan only rearranges and relabels entries: for every id, the
number of occurrences among the output registry and finished list
equals the number of occurrences among the input registry and
accumulator. -/
lemma orphan_scan_count (i : Nat) :
    ∀ (l acc : List SESSION),
      ((orphan_scan l acc).1.map SESSION.id).count i +
        ((orphan_scan l acc).2.map SESSION.id).count i =
      (l.map SESSION.id).count i + (acc.map SESSION.id).count i := by
  intro l
  induction l with
  | nil =>
    intro acc
    simp [orphan_scan]
  | cons x rest ih =>
    intro acc
    by_cases hx : x.state = SESSION_STATE_TO_BE_FREED
    · rw [orphan_scan_cons_tbf hx, ih]
      simp [List.count_cons]
      omega
    · rw [orphan_scan_cons_keep hx]
      have hih := ih acc
      simp [List.count_cons, orphan_mark_id]
      omega

/-- Releasing the memory of the finished entries does not change their
ids. -/
lemma setFree_map_ids (l : List SESSION) :
    (l.map (fun ses => { ses with state := SESSION_STATE_FREE })).map
      SESSION.id = l.map SESSION.id := by
  rw [List.map_map]
  exact List.map_congr_left fun s _ => rfl

/-- An id absent from a registry is neither in the registry nor in the
freed list after a reclaim scan. -/
lemma orphan_free_absent {i : Nat} {l : List SESSION}
    (h : i ∉ l.map SESSION.id) :
    i ∉ (orphan_free l).1.map SESSION.id ∧
    i ∉ (orphan_free l).2.map SESSION.id := by
  constructor
  · intro hm
    rcases List.mem_map.1 hm with ⟨s, hs, rfl⟩
    rcases orphan_scan_fst_mem l [] s hs with ⟨t, ht, rfl⟩
    exact h (by rw [orphan_mark_id]; exact List.mem_map_of_mem _ ht)
  · intro hm
    rw [show (orphan_free l).2 = ((orphan_scan l []).2.map
      (fun ses => { ses with state := SESSION_STATE_FREE })) from rfl,
      setFree_map_ids] at hm
    rcases List.mem_map.1 hm with ⟨s, hs, rfl⟩
    rcases orphan_scan_snd_mem l [] s hs with ⟨h1, _⟩ | h3
    · exact h (List.mem_map_of_mem _ h1)
    · simp at h3

/-- Claim C7: a branch session handed to the orphan registry while
stopping is freed at most once and exactly once overall.  First
conjunct: while the session is stopping but not yet quiescent (nonzero
refcount or an attached client DCB) a scan leaves it in the registry
untouched and does not free it, so the transition to
SESSION_STATE_TO_BE_FREED happens only once the state is stopping with
zero references and no client DCB.  Second conjunct: once quiescent,
the first scan only marks it (it is not freed yet and stays
registered), and the second scan unlinks it from the registry and
invokes the free hook on it exactly once: its id occurs exactly once
among the sessions freed by the two scans and no longer occurs in the
registry.  Third conjunct: a session whose id is not in a registry is
never freed by a scan of that registry, so no further scan can free it
again.  The free hook and the memory release are applied to the
finished list only after the locked scan has produced the new registry,
which is the phase split of orphan_free. -/
theorem orphan_reclaimed_exactly_once (reg : List SESSION) (ses : SESSION)
    (hstop : ses.state = SESSION_STATE_STOPPING)
    (hnodup : ((create_orphan ses reg).map SESSION.id).Nodup) :
    (¬ (ses.refcount = 0 ∧ ses.client_dcb = none) →
      ses ∈ (orphan_free (create_orphan ses reg)).1 ∧
      ses.id ∉ (orphan_free (create_orphan ses reg)).2.map SESSION.id)
    ∧ (ses.refcount = 0 → ses.client_dcb = none →
      ses.id ∉ (orphan_free (create_orphan ses reg)).2.map SESSION.id
      ∧ { ses with state := SESSION_STATE_TO_BE_FREED } ∈
          (orphan_free (create_orphan ses reg)).1
      ∧ ((orphan_free (create_orphan ses reg)).2.map SESSION.id ++
          (orphan_free (orphan_free (create_orphan ses reg)).1).2.map
            SESSION.id).count ses.id = 1
      ∧ ses.id ∉
          (orphan_free (orphan_free (create_orphan ses reg)).1).1.map
            SESSION.id)
    ∧ (∀ reg2 : List SESSION, ses.id ∉ reg2.map SESSION.id →
      ses.id ∉ (orphan_free reg2).2.map SESSION.id ∧
      ses.id ∉ (orphan_free reg2).1.map SESSION.id) := by
  have hne : ¬ ses.state = SESSION_STATE_TO_BE_FREED := by
    rw [hstop]
    decide
  have hni : ses.id ∉ reg.map SESSION.id := by
    have := hnodup
    simp only [create_orphan, List.map_cons, List.nodup_cons] at this
    exact this.1
  -- the first scan keeps the head entry, marked
  have hr1 : orphan_free (create_orphan ses reg) =
      (orphan_mark ses :: (orphan_scan reg []).1,
        (orphan_scan reg []).2.map
          (fun s => { s with state := SESSION_STATE_FREE })) := by
    unfold orphan_free create_orphan
    rw [orphan_scan_cons_keep hne]
  -- the freed list of the first scan cannot contain the new id
  have hfreed1 : ses.id ∉
      (orphan_free (create_orphan ses reg)).2.map SESSION.id := by
    rw [hr1, setFree_map_ids]
    intro hm
    rcases List.mem_map.1 hm with ⟨s, hs, hid⟩
    rcases orphan_scan_snd_mem reg [] s hs with ⟨h1, _⟩ | h3
    · exact hni (hid ▸ List.mem_map_of_mem _ h1)
    · simp at h3
  -- ids in the registry left by scanning reg all come from reg
  have hrest : ∀ s ∈ (orphan_scan reg []).1, s.id ∈ reg.map SESSION.id := by
    intro s hs
    rcases orphan_scan_fst_mem reg [] s hs with ⟨t, ht, rfl⟩
    rw [orphan_mark_id]
    exact List.mem_map_of_mem _ ht
  refine ⟨?_, ?_, ?_⟩
  · intro hno
    have hmark : orphan_mark ses = ses := by
      unfold orphan_mark
      rw [if_neg]
      intro hc
      exact hno ⟨hc.2.1, hc.2.2⟩
    constructor
    · rw [hr1, hmark]
      exact List.mem_cons_self _ _
    · exact hfreed1
  · intro href hdcb
    have hmark : orphan_mark ses =
        { ses with state := SESSION_STATE_TO_BE_FREED } := by
      unfold orphan_mark
      rw [if_pos ⟨hstop, href, hdcb⟩]
    refine ⟨hfreed1, ?_, ?_, ?_⟩
    · rw [hr1, hmark]
      exact List.mem_cons_self _ _
    · -- the second scan frees the marked entry exactly once
      rw [List.count_append]
      rw [List.count_eq_zero.2 hfreed1]
      rw [hr1, hmark]
      have htbf : ({ ses with state := SESSION_STATE_TO_BE_FREED } :
          SESSION).state = SESSION_STATE_TO_BE_FREED := rfl
      show 0 + ((orphan_free _).2.map SESSION.id).count ses.id = 1
      rw [Nat.zero_add]
      unfold orphan_free
      rw [setFree_map_ids, orphan_scan_cons_tbf htbf]
      -- count conservation over the scan of the remaining registry
      have hcons := orphan_scan_count ses.id (orphan_scan reg []).1
        [{ ses with state := SESSION_STATE_TO_BE_FREED }]
      have hrest0 : (((orphan_scan reg []).1).map SESSION.id).count
          ses.id = 0 := by
        rw [List.count_eq_zero]
        intro hm
        rcases List.mem_map.1 hm with ⟨s, hs, hid⟩
        exact hni (hid ▸ hrest s hs)
      have hfst0 : (((orphan_scan (orphan_scan reg []).1
          [{ ses with state := SESSION_STATE_TO_BE_FREED }]).1).map
            SESSION.id).count ses.id = 0 := by
        rw [List.count_eq_zero]
        intro hm
        rcases List.mem_map.1 hm with ⟨s, hs, hid⟩
        rcases orphan_scan_fst_mem _ _ s hs with ⟨t, ht, rfl⟩
        rw [orphan_mark_id] at hid
        exact hni (hid ▸ hrest t ht)
      rw [hrest0, hfst0] at hcons
      simpa using hcons
    · rw [hr1, hmark]
      have htbf : ({ ses with state := SESSION_STATE_TO_BE_FREED } :
          SESSION).state = SESSION_STATE_TO_BE_FREED := rfl
      intro hm
      rcases List.mem_map.1 hm with ⟨s, hs, hid⟩
      have hs2 : s ∈ (orphan_scan ({ ses with state :=
          SESSION_STATE_TO_BE_FREED } :: (orphan_scan reg []).1) []).1 := hs
      rw [orphan_scan_cons_tbf htbf] at hs2
      rcases orphan_scan_fst_mem _ _ s hs2 with ⟨t, ht, rfl⟩
      rw [orphan_mark_id] at hid
      exact hni (hid ▸ hrest t ht)
  · intro reg2 h2
    exact ⟨(orphan_free_absent h2).2, (orphan_free_absent h2).1⟩

/-- Witness for C7: one concrete quiescent stopping branch session in
an otherwise empty registry is freed exactly once across two reclaim
scans. -/
theorem orphan_reclaimed_exactly_once_witness :
    ((orphan_free (create_orphan (mkBranch SESSION_STATE_STOPPING) [])).2.map
        SESSION.id ++
      (orphan_free (orphan_free (create_orphan
        (mkBranch SESSION_STATE_STOPPING) [])).1).2.map
        SESSION.id).count (mkBranch SESSION_STATE_STOPPING).id = 1 :=
  ((orphan_reclaimed_exactly_once [] (mkBranch SESSION_STATE_STOPPING) rfl
    (by decide)).2.1 rfl rfl).2.2.1

/-! Helper lemmas for the waiting-flag invariant. -/

/-- Every session newSession returns has both waiting flags clear
(MXS_CALLOC zero-initializes them and no later statement of newSession
writes them). -/
lemma newSession_waiting {env : List SERVICE} {inst : TEE_INSTANCE}
    {sess : SESSION} {d : Option DCB} {bs : Option SESSION}
    {ms : TEE_SESSION} (h : newSession env inst sess d bs = some ms) :
    ms.waiting = (false, false) := by
  unfold newSession at h
  simp only [] at h
  repeat' split at h
  all_goals first
    | exact Option.noConfusion h
    | (injection h with h2; subst h2; rfl)

/-- route_single_query never writes the waiting flags. -/
lemma route_preserves_waiting (inst : TEE_INSTANCE) (s : TEE_SESSION)
    (buffer : GWBUF) (clone : Option GWBUF) (down : GWBUF → Int)
    (st : session_state_t) :
    (route_single_query inst s buffer clone down st).session.waiting =
      s.waiting := by
  unfold route_single_query
  repeat' split
  all_goals rfl

/-- closeSession never writes the waiting flags. -/
lemma close_preserves_waiting (s : TEE_SESSION) :
    (closeSession s).session.waiting = s.waiting := by
  unfold closeSession
  split <;> rfl

/-- When the PARENT waiting flag is clear, closeSession writes no error
reply. -/
lemma close_errorWritten_of_waiting (s : TEE_SESSION)
    (h : s.waiting.1 = false) : (closeSession s).errorWritten = false := by
  unfold closeSession
  split
  · simp [h]
  · rfl

/-- The session states reachable by this filter: a session produced by
newSession followed by any interleaving of routeQuery dispatches (the
clone decision composed with route_single_query, as routeQuery does)
and closeSession calls.  clientReply, setDownstream and setUpstream do
not write any modelled session field and need no constructor. -/
inductive ReachableTee : TEE_SESSION → Prop
  | init (env : List SERVICE) (inst : TEE_INSTANCE) (sess : SESSION)
      (d : Option DCB) (bs : Option SESSION) (ms : TEE_SESSION)
      (h : newSession env inst sess d bs = some ms) : ReachableTee ms
  | route (inst : TEE_INSTANCE) (s : TEE_SESSION) (buffer : GWBUF)
      (down : GWBUF → Int) (st : session_state_t) (h : ReachableTee s) :
      ReachableTee (route_single_query inst s buffer
        (clone_query inst s buffer) down st).session
  | close (s : TEE_SESSION) (h : ReachableTee s) :
      ReachableTee (closeSession s).session

/-- Claim C10: in every reachable session state the PARENT waiting flag
is false — routeQuery never calls reset_session_state, the only writer
of the waiting flags — so the mid-query-close path of closeSession (the
synthesized Session closed error reply) is never executed.  The second
conjunct records that reset_session_state is indeed the writer: on any
buffer of at least five bytes it sets both waiting flags. -/
theorem waiting_flags_never_set :
    (∀ s : TEE_SESSION, ReachableTee s →
      s.waiting.1 = false ∧ (closeSession s).errorWritten = false)
    ∧ (∀ (s : TEE_SESSION) (buffer : GWBUF), ¬ buffer.bytes.length < 5 →
      (reset_session_state s buffer).2.waiting = (true, true)) := by
  constructor
  · intro s h
    have hw : s.waiting.1 = false := by
      induction h with
      | init env inst sess d bs ms hnew => rw [newSession_waiting hnew]
      | route inst s buffer down st h ih => rw [route_preserves_waiting]; exact ih
      | close s h ih => rw [close_preserves_waiting]; exact ih
    exact ⟨hw, close_errorWritten_of_waiting s hw⟩
  · intro s buffer h
    unfold reset_session_state
    rw [if_neg h]

/-- Witness for C10: a concrete session created inactive by a source
mismatch is reachable, and closing it writes no error reply. -/
theorem waiting_flags_never_set_witness :
    (mkTeeSession 0 none).waiting.1 = false ∧
    (closeSession (mkTeeSession 0 none)).errorWritten = false :=
  waiting_flags_never_set.1 (mkTeeSession 0 none)
    (ReachableTee.init []
      { service := "branch_svc", source := some "10.0.0.5", userName := none,
        re := none, nore := none }
      { serviceName := "A", state := SESSION_STATE_ROUTER_READY,
        refcount := 1, client_dcb := none, remote := some "10.0.0.9",
        user := none, id := 0 }
      none none (mkTeeSession 0 none) (by decide))

end Tee
